import Mathlib

/-!
Shallow embedding of the construction-app backend's workflow engine
(worker requests, worker assignment, material ordering, project-scoped
read access), translated from the Express route handlers in
`src/routes/materials.js`, `src/routes/projects.js`, the workers router
and the milestones router, together with the SQLite schema from the
database initialisation module.

Rows of each SQLite table become Lean structures; the database becomes a
record of row lists plus per-table AUTOINCREMENT counters.  Each handler
becomes a pure function `DB → ... → Result × DB`.  SQL `SELECT ... WHERE`
lookups become `List.find?` with the same predicate, `UPDATE ... WHERE`
becomes `List.map` over the rows, `INSERT` appends a row.  A
`BEGIN TRANSACTION ... COMMIT / ROLLBACK` block is modelled by a step list
run through `runTransaction`, whose `failAt` argument injects a store
failure at a chosen statement: the rolled-back result is the unchanged
database, exactly as SQLite's ROLLBACK restores the pre-transaction state.
-/

/-- `user_type` column: CHECK(user_type IN ('admin', 'user', 'worker')). -/
inductive UserType where
  | admin
  | user
  | worker
deriving Repr, DecidableEq

/-- `sub_user_type` column: CHECK(sub_user_type IN ('civil_engineer', 'painter', 'plumber', 'electrician', 'other')). -/
inductive SubUserType where
  | civil_engineer
  | painter
  | plumber
  | electrician
  | other
deriving Repr, DecidableEq

/-- `projects.status` column: CHECK(status IN ('planning', 'in_progress', 'completed', 'cancelled')). -/
inductive ProjectStatus where
  | planning
  | in_progress
  | completed
  | cancelled
deriving Repr, DecidableEq

/-- `worker_requests.status` column: CHECK(status IN ('pending', 'accepted', 'rejected')). -/
inductive RequestStatus where
  | pending
  | accepted
  | rejected
deriving Repr, DecidableEq

/-- Row of the `users` table (columns relevant to the workflows). -/
structure User where
  id : Nat
  user_type : UserType
  sub_user_type : Option SubUserType
  is_available : Bool
deriving Repr, DecidableEq

/-- Row of the `projects` table (columns relevant to the workflows). -/
structure Project where
  id : Nat
  created_by : Nat
  civil_engineer_id : Option Nat
  status : ProjectStatus
deriving Repr, DecidableEq

/-- Row of the `worker_requests` table.  `responded` models whether
`responded_at` has been set. -/
structure WorkerRequest where
  id : Nat
  project_id : Nat
  worker_id : Nat
  requested_by : Nat
  status : RequestStatus
  message : String
  responded : Bool
deriving Repr, DecidableEq

/-- Row of the `project_workers` table.  `role` is TEXT and nullable
(the assign handler stores `role || worker.sub_user_type`, which is null
when both are absent). -/
structure ProjectWorker where
  id : Nat
  project_id : Nat
  worker_id : Nat
  assigned_by : Nat
  role : Option String
deriving Repr, DecidableEq

/-- Row of the `materials` table.  DECIMAL money amounts are modelled as
integers (minor currency units); `stock_quantity` is an SQLite INTEGER
with no non-negativity constraint, hence `Int`. -/
structure Material where
  id : Nat
  price_per_unit : Int
  stock_quantity : Int
deriving Repr, DecidableEq

/-- Row of the `project_materials` table (an order line). -/
structure ProjectMaterial where
  id : Nat
  project_id : Nat
  material_id : Nat
  quantity : Int
  total_cost : Int
  ordered_by : Nat
deriving Repr, DecidableEq

/-- Row of the `project_milestones` table (only fields the read endpoint
returns are relevant here). -/
structure Milestone where
  id : Nat
  project_id : Nat
  title : String
  created_by : Nat
deriving Repr, DecidableEq

/-- The SQLite database: one list of rows per table plus per-table
AUTOINCREMENT counters for the tables the workflows insert into. -/
structure DB where
  users : List User
  projects : List Project
  worker_requests : List WorkerRequest
  project_workers : List ProjectWorker
  materials : List Material
  project_materials : List ProjectMaterial
  project_milestones : List Milestone
  next_request_id : Nat
  next_worker_row_id : Nat
  next_order_id : Nat
deriving Repr, DecidableEq

/-- `SELECT * FROM projects WHERE id = ?`. -/
def projectById (db : DB) (pid : Nat) : Option Project :=
  db.projects.find? (fun p => p.id == pid)

/-- `SELECT * FROM projects WHERE id = ? AND civil_engineer_id = ?`
(the civil-engineer authorisation lookup shared by the order, milestone
and assign handlers). -/
def projectWithEngineer (db : DB) (pid uid : Nat) : Option Project :=
  db.projects.find? (fun p => p.id == pid && p.civil_engineer_id == some uid)

/-- `SELECT * FROM materials WHERE id = ?`. -/
def materialById (db : DB) (mid : Nat) : Option Material :=
  db.materials.find? (fun m => m.id == mid)

/-- `SELECT * FROM users WHERE id = ? AND user_type = 'worker' AND
sub_user_type = 'civil_engineer' AND is_available = 1` (request-worker
availability check). -/
def availableEngineer (db : DB) (wid : Nat) : Option User :=
  db.users.find? (fun u =>
    u.id == wid && u.user_type == UserType.worker
      && u.sub_user_type == some SubUserType.civil_engineer && u.is_available)

/-- `SELECT * FROM users WHERE id = ? AND user_type = 'worker' AND
is_available = 1` (direct-assignment availability check). -/
def availableWorker (db : DB) (wid : Nat) : Option User :=
  db.users.find? (fun u =>
    u.id == wid && u.user_type == UserType.worker && u.is_available)

/-- `SELECT * FROM worker_requests WHERE project_id = ? AND worker_id = ?
AND status = 'pending'`. -/
def pendingRequest (db : DB) (pid wid : Nat) : Option WorkerRequest :=
  db.worker_requests.find? (fun r =>
    r.project_id == pid && r.worker_id == wid && r.status == RequestStatus.pending)

/-- `SELECT * FROM worker_requests WHERE id = ? AND worker_id = ?`
(request fetch scoped to the target worker). -/
def requestForWorker (db : DB) (rid wid : Nat) : Option WorkerRequest :=
  db.worker_requests.find? (fun r => r.id == rid && r.worker_id == wid)

/-- `SELECT * FROM project_workers WHERE project_id = ? AND worker_id = ?`
(assignment-list membership used by the read guard). -/
def workerAssignment (db : DB) (pid wid : Nat) : Option ProjectWorker :=
  db.project_workers.find? (fun pw => pw.project_id == pid && pw.worker_id == wid)

/-- `UPDATE worker_requests SET status = ?, responded_at = CURRENT_TIMESTAMP
WHERE id = ?`. -/
def setRequestStatus (rid : Nat) (s : RequestStatus) (db : DB) : DB :=
  { db with
    worker_requests := db.worker_requests.map (fun r =>
      if r.id == rid then { r with status := s, responded := true } else r) }

/-- `UPDATE projects SET civil_engineer_id = ?, status = 'in_progress'
WHERE id = ?`. -/
def setProjectEngineer (pid uid : Nat) (db : DB) : DB :=
  { db with
    projects := db.projects.map (fun p =>
      if p.id == pid then
        { p with civil_engineer_id := some uid, status := ProjectStatus.in_progress }
      else p) }

/-- `INSERT INTO project_workers (project_id, worker_id, assigned_by, role)
VALUES (?, ?, ?, ?)`. -/
def insertProjectWorker (pid wid assignedBy : Nat) (role : Option String) (db : DB) : DB :=
  { db with
    project_workers :=
      db.project_workers ++ [⟨db.next_worker_row_id, pid, wid, assignedBy, role⟩],
    next_worker_row_id := db.next_worker_row_id + 1 }

/-- `UPDATE users SET is_available = 0 WHERE id = ?`. -/
def setUnavailable (uid : Nat) (db : DB) : DB :=
  { db with
    users := db.users.map (fun u =>
      if u.id == uid then { u with is_available := false } else u) }

/-- Run the statements of a transaction body in order. -/
def applySteps (steps : List (DB → DB)) (db : DB) : DB :=
  steps.foldl (fun s f => f s) db

/-- `BEGIN TRANSACTION; steps; COMMIT` with rollback-on-error: `failAt = some k`
means the k-th statement of the body throws, so ROLLBACK restores the
pre-transaction state (`none` result); otherwise all statements commit. -/
def runTransaction (db : DB) (steps : List (DB → DB)) (failAt : Option Nat) :
    Option DB :=
  match failAt with
  | some k => if k < steps.length then none else some (applySteps steps db)
  | none => some (applySteps steps db)

/-- Outcomes of `PUT /requests/:id/respond`, one constructor per response
branch of the handler (403 only-workers, 404, 400 already-responded,
500 on a store error inside the transaction, 200). -/
inductive RespondResult where
  | onlyWorkers
  | requestNotFound
  | alreadyResponded
  | internalError
  | ok (decision : RequestStatus)
deriving Repr, DecidableEq

/-- Transaction body of the respond handler: the request-status update
always runs; the accepted branch additionally updates the project, inserts
the `civil_engineer` assignment row and flips the worker's availability. -/
def respondTxSteps (actor : User) (rid projectId : Nat) (decision : RequestStatus) :
    List (DB → DB) :=
  setRequestStatus rid decision ::
    (if decision == RequestStatus.accepted then
      [setProjectEngineer projectId actor.id,
       insertProjectWorker projectId actor.id actor.id (some "civil_engineer"),
       setUnavailable actor.id]
    else [])

/-- `PUT /requests/:id/respond` (workers router): only workers may respond;
the request is fetched scoped to (id, actor); a non-pending request is
rejected; the effects run inside one transaction. -/
def respondToRequest (db : DB) (actor : User) (rid : Nat)
    (decision : RequestStatus) (failAt : Option Nat) : RespondResult × DB :=
  if actor.user_type ≠ UserType.worker then (RespondResult.onlyWorkers, db)
  else
    match requestForWorker db rid actor.id with
    | none => (RespondResult.requestNotFound, db)
    | some req =>
      if req.status ≠ RequestStatus.pending then (RespondResult.alreadyResponded, db)
      else
        match runTransaction db (respondTxSteps actor rid req.project_id decision) failAt with
        | none => (RespondResult.internalError, db)
        | some db' => (RespondResult.ok decision, db')

/-- Failure outcomes of `POST /materials/order`, one constructor per error
response of the handler (403 not-authorised, 404 material, 400 insufficient
stock). -/
inductive OrderError where
  | notAuthorizedForProject
  | materialNotFound
  | insufficientStock
deriving Repr, DecidableEq

/-- Input body of `POST /materials/order`. -/
structure OrderArgs where
  project_id : Nat
  material_id : Nat
  quantity : Int
deriving Repr, DecidableEq

/-- The pre-transaction phase of the order handler: authorisation lookup,
material fetch, the stock-sufficiency comparison and the total-cost
snapshot.  In the source all of this runs BEFORE `BEGIN TRANSACTION`. -/
def orderCheck (db : DB) (actor : User) (a : OrderArgs) : Except OrderError Int :=
  match projectWithEngineer db a.project_id actor.id with
  | none => Except.error OrderError.notAuthorizedForProject
  | some _ =>
    match materialById db a.material_id with
    | none => Except.error OrderError.materialNotFound
    | some material =>
      if material.stock_quantity < a.quantity then
        Except.error OrderError.insufficientStock
      else
        Except.ok (material.price_per_unit * a.quantity)

/-- The transactional phase of the order handler: insert the order row and
run `UPDATE materials SET stock_quantity = stock_quantity - ? WHERE id = ?`
(a relative decrement against the stock at write time). -/
def orderWrite (db : DB) (actor : User) (a : OrderArgs) (total_cost : Int) : DB :=
  { db with
    project_materials :=
      db.project_materials ++
        [⟨db.next_order_id, a.project_id, a.material_id, a.quantity, total_cost, actor.id⟩],
    materials := db.materials.map (fun m =>
      if m.id == a.material_id then
        { m with stock_quantity := m.stock_quantity - a.quantity }
      else m),
    next_order_id := db.next_order_id + 1 }

/-- `POST /materials/order` run in isolation: check phase, then the
transactional write phase. -/
def orderMaterial (db : DB) (actor : User) (a : OrderArgs) :
    Except OrderError Int × DB :=
  match orderCheck db actor a with
  | Except.error e => (Except.error e, db)
  | Except.ok tc => (Except.ok tc, orderWrite db actor a tc)

/-- Two concurrent `POST /materials/order` calls under the schedule the
event loop permits: both handlers finish their pre-transaction reads
(authorisation, material fetch, stock check) against the initial state,
then the two transactions commit one after the other.  Each write phase
still performs its relative stock decrement against the then-current
state. -/
def twoOrdersStaleRead (db : DB) (u1 : User) (a1 : OrderArgs)
    (u2 : User) (a2 : OrderArgs) :
    (Except OrderError Int × Except OrderError Int) × DB :=
  match orderCheck db u1 a1, orderCheck db u2 a2 with
  | Except.ok t1, Except.ok t2 =>
    ((Except.ok t1, Except.ok t2), orderWrite (orderWrite db u1 a1 t1) u2 a2 t2)
  | Except.ok t1, Except.error e2 =>
    ((Except.ok t1, Except.error e2), orderWrite db u1 a1 t1)
  | Except.error e1, Except.ok t2 =>
    ((Except.error e1, Except.ok t2), orderWrite db u2 a2 t2)
  | Except.error e1, Except.error e2 =>
    ((Except.error e1, Except.error e2), db)

/-- Sequential composition of order calls (each call sees the committed
state of the previous one). -/
def applyOrders (db : DB) (ops : List (User × OrderArgs)) : DB :=
  ops.foldl (fun s op => (orderMaterial s op.1 op.2).2) db

/-- Outcomes of `POST /projects/:id/request-worker`, one constructor per
response branch (404 project, 403 not-authorised, 400 worker-not-available,
400 request-already-sent, 201 with the new request id). -/
inductive CreateRequestResult where
  | projectNotFound
  | notOwner
  | workerNotAvailable
  | requestAlreadySent
  | created (id : Nat)
deriving Repr, DecidableEq

/-- Input of `POST /projects/:id/request-worker` (`:id` plus the body). -/
structure CreateRequestArgs where
  project_id : Nat
  worker_id : Nat
  message : String
deriving Repr, DecidableEq

/-- `POST /projects/:id/request-worker`: the project must exist and be owned
by the actor, the target must be an available civil-engineer worker, and no
pending request for the (project, worker) pair may exist; then a new
request row is inserted with the default status `pending`. -/
def createWorkerRequest (db : DB) (actor : User) (a : CreateRequestArgs) :
    CreateRequestResult × DB :=
  match projectById db a.project_id with
  | none => (CreateRequestResult.projectNotFound, db)
  | some project =>
    if project.created_by ≠ actor.id then (CreateRequestResult.notOwner, db)
    else
      match availableEngineer db a.worker_id with
      | none => (CreateRequestResult.workerNotAvailable, db)
      | some _ =>
        match pendingRequest db a.project_id a.worker_id with
        | some _ => (CreateRequestResult.requestAlreadySent, db)
        | none =>
          (CreateRequestResult.created db.next_request_id,
           { db with
             worker_requests :=
               db.worker_requests ++
                 [⟨db.next_request_id, a.project_id, a.worker_id, actor.id,
                   RequestStatus.pending, a.message, false⟩],
             next_request_id := db.next_request_id + 1 })

/-- Outcomes of `POST /workers/assign`, one constructor per response branch
(403 only-civil-engineers, 403 not-authorised-for-project, 400
worker-not-available, 500 store error in the transaction, 200). -/
inductive AssignResult where
  | onlyCivilEngineers
  | notAuthorizedForProject
  | workerNotAvailable
  | internalError
  | assigned
deriving Repr, DecidableEq

/-- Input body of `POST /workers/assign`; `role` is optional and falls back
to the worker's sub-role. -/
structure AssignArgs where
  project_id : Nat
  worker_id : Nat
  role : Option String
deriving Repr, DecidableEq

/-- TEXT rendering of a worker sub-role, as stored in `project_workers.role`
when the assign body supplies no role. -/
def subRoleLabel : SubUserType → String
  | SubUserType.civil_engineer => "civil_engineer"
  | SubUserType.painter => "painter"
  | SubUserType.plumber => "plumber"
  | SubUserType.electrician => "electrician"
  | SubUserType.other => "other"

/-- Transaction body of the assign handler: insert the assignment row
(role = caller-supplied or the worker's sub-role) and flip the worker's
availability. -/
def assignTxSteps (actor : User) (a : AssignArgs) (worker : User) :
    List (DB → DB) :=
  [insertProjectWorker a.project_id a.worker_id actor.id
     (match a.role with
      | some r => some r
      | none => worker.sub_user_type.map subRoleLabel),
   setUnavailable a.worker_id]

/-- `POST /workers/assign` (workers router): only civil-engineer workers may
call it; the actor must be the named project's civil engineer; the target
must be an available worker; then the assignment insert and the
availability flip run inside one transaction. -/
def assignWorker (db : DB) (actor : User) (a : AssignArgs) (failAt : Option Nat) :
    AssignResult × DB :=
  if actor.user_type ≠ UserType.worker ∨ actor.sub_user_type ≠ some SubUserType.civil_engineer then
    (AssignResult.onlyCivilEngineers, db)
  else
    match projectWithEngineer db a.project_id actor.id with
    | none => (AssignResult.notAuthorizedForProject, db)
    | some _ =>
      match availableWorker db a.worker_id with
      | none => (AssignResult.workerNotAvailable, db)
      | some worker =>
        match runTransaction db (assignTxSteps actor a worker) failAt with
        | none => (AssignResult.internalError, db)
        | some db' => (AssignResult.assigned, db')

/-- Error outcomes of the project-scoped read guard (404 project, 403). -/
inductive ReadError where
  | projectNotFound
  | forbidden
deriving Repr, DecidableEq

/-- The access prologue duplicated verbatim by the three sub-resource read
endpoints (`GET /materials/project/:projectId`, the milestones listing and
`GET /workers/project/:projectId`): a `user`-type actor must own the
project; a `worker`-type actor must be its civil engineer or appear in its
assignment list; any other actor (admin) falls through both guards. -/
def authorizeProjectRead (db : DB) (actor : User) (pid : Nat) :
    Except ReadError Project :=
  match projectById db pid with
  | none => Except.error ReadError.projectNotFound
  | some project =>
    if actor.user_type = UserType.user ∧ project.created_by ≠ actor.id then
      Except.error ReadError.forbidden
    else if actor.user_type = UserType.worker ∧ project.civil_engineer_id ≠ some actor.id then
      match workerAssignment db pid actor.id with
      | none => Except.error ReadError.forbidden
      | some _ => Except.ok project
    else Except.ok project

/-- `GET /materials/project/:projectId`: guard, then the project's order
rows. -/
def getProjectMaterials (db : DB) (actor : User) (pid : Nat) :
    Except ReadError (List ProjectMaterial) :=
  (authorizeProjectRead db actor pid).map (fun _ =>
    db.project_materials.filter (fun pm => pm.project_id == pid))

/-- Milestones listing endpoint: guard, then the project's milestone rows. -/
def getProjectMilestones (db : DB) (actor : User) (pid : Nat) :
    Except ReadError (List Milestone) :=
  (authorizeProjectRead db actor pid).map (fun _ =>
    db.project_milestones.filter (fun m => m.project_id == pid))

/-- `GET /workers/project/:projectId`: guard, then the project's assignment
rows. -/
def getProjectWorkers (db : DB) (actor : User) (pid : Nat) :
    Except ReadError (List ProjectWorker) :=
  (authorizeProjectRead db actor pid).map (fun _ =>
    db.project_workers.filter (fun pw => pw.project_id == pid))

instance {ε α : Type} [DecidableEq ε] [DecidableEq α] : DecidableEq (Except ε α) :=
  fun x y =>
    match x, y with
    | Except.ok a, Except.ok b =>
      if h : a = b then isTrue (by rw [h]) else isFalse (by simp [h])
    | Except.error a, Except.error b =>
      if h : a = b then isTrue (by rw [h]) else isFalse (by simp [h])
    | Except.ok _, Except.error _ => isFalse (by simp)
    | Except.error _, Except.ok _ => isFalse (by simp)

/-- A client who owns project 10. -/
def ownerUser : User := ⟨1, UserType.user, none, true⟩

/-- The civil engineer installed on project 10 (unavailable, as after an
acceptance). -/
def ceUser : User := ⟨2, UserType.worker, some SubUserType.civil_engineer, false⟩

/-- An available civil engineer (target of the first request). -/
def engineerW1 : User := ⟨2, UserType.worker, some SubUserType.civil_engineer, true⟩

/-- A second available civil engineer (target of the second request). -/
def engineerW2 : User := ⟨3, UserType.worker, some SubUserType.civil_engineer, true⟩

/-- An admin who neither owns nor works on any project. -/
def adminUser : User := ⟨9, UserType.admin, none, true⟩

/-- A client who owns nothing. -/
def clientUser : User := ⟨5, UserType.user, none, true⟩

/-- An unavailable plumber. -/
def plumberW4 : User := ⟨4, UserType.worker, some SubUserType.plumber, false⟩

/-- State for the ordering scenarios: project 10 owned by user 1 with civil
engineer 2, and material 1 (price 450) with stock 10. -/
def dbOrder : DB :=
  ⟨[ownerUser, ceUser], [⟨10, 1, some 2, ProjectStatus.in_progress⟩],
   [], [], [⟨1, 450, 10⟩], [], [], 1, 1, 1⟩

/-- State for the double-request scenario: project 10 owned by user 1 still
in planning, two available civil engineers 2 and 3. -/
def dbTwoRequests : DB :=
  ⟨[ownerUser, engineerW1, engineerW2], [⟨10, 1, none, ProjectStatus.planning⟩],
   [], [], [], [], [], 1, 1, 1⟩

/-- dbTwoRequests after the owner sends requests to engineers 2 and 3
(rows 1 and 2, both pending). -/
def dbAfterRequests : DB :=
  (createWorkerRequest (createWorkerRequest dbTwoRequests ownerUser ⟨10, 2, "r1"⟩).2
    ownerUser ⟨10, 3, "r2"⟩).2

/-- dbAfterRequests after engineer 2 accepts request 1. -/
def dbAfterFirstAccept : DB :=
  (respondToRequest dbAfterRequests engineerW1 1 RequestStatus.accepted none).2

/-- State for the read-access scenario: project 10 owned by user 1 with
civil engineer 2, one order row, no assignment rows. -/
def dbRead : DB :=
  ⟨[ownerUser, ceUser, adminUser], [⟨10, 1, some 2, ProjectStatus.in_progress⟩],
   [], [], [⟨1, 450, 5⟩], [⟨1, 10, 1, 5, 2250, 2⟩], [], 1, 1, 2⟩

/-- State for the assignment scenarios: project 10 with civil engineer 2,
plus an unavailable plumber 4 and an unrelated client 5. -/
def dbAssign : DB :=
  ⟨[ownerUser, ceUser, plumberW4, clientUser],
   [⟨10, 1, some 2, ProjectStatus.in_progress⟩], [], [], [], [], [], 1, 1, 1⟩

/-- C1: the order handler runs its stock-sufficiency check before
`BEGIN TRANSACTION`, so under the interleaving in which two concurrent
orders (quantity 8 against stock 10) both finish their pre-transaction
reads before either transaction commits, both succeed and the final stock
is -6 — not the claimed exactly-one-success with final stock 2. -/
theorem order_stale_check_overdraws_stock :
    (twoOrdersStaleRead dbOrder ceUser ⟨10, 1, 8⟩ ceUser ⟨10, 1, 8⟩).1 =
      (Except.ok 3600, Except.ok 3600) ∧
    materialById (twoOrdersStaleRead dbOrder ceUser ⟨10, 1, 8⟩ ceUser ⟨10, 1, 8⟩).2 1 =
      some ⟨1, 450, -6⟩ := by decide

/-- C9: the order handler never validates that the quantity is a positive
integer: quantity 0 is accepted and recorded as an order row with
quantity 0, and quantity -5 is accepted and increases the stock to 15. -/
theorem order_nonpositive_quantity_bug :
    (orderMaterial dbOrder ceUser ⟨10, 1, 0⟩).1 = Except.ok 0 ∧
    (orderMaterial dbOrder ceUser ⟨10, 1, 0⟩).2.project_materials =
      [⟨1, 10, 1, 0, 0, 2⟩] ∧
    (orderMaterial dbOrder ceUser ⟨10, 1, -5⟩).1 = Except.ok (-2250) ∧
    materialById (orderMaterial dbOrder ceUser ⟨10, 1, -5⟩).2 1 = some ⟨1, 450, 15⟩ := by
  decide

/-- C8: `civil_engineer_id` is not set exactly once: two pending requests to
different engineers can coexist for one project, and accepting the second
one silently replaces the engineer installed by the first acceptance
(2 becomes 3), with both accept calls succeeding. -/
theorem civil_engineer_overwritten_bug :
    (respondToRequest dbAfterRequests engineerW1 1 RequestStatus.accepted none).1 =
      RespondResult.ok RequestStatus.accepted ∧
    (projectById dbAfterFirstAccept 10).map Project.civil_engineer_id = some (some 2) ∧
    (respondToRequest dbAfterFirstAccept engineerW2 2 RequestStatus.accepted none).1 =
      RespondResult.ok RequestStatus.accepted ∧
    (projectById (respondToRequest dbAfterFirstAccept engineerW2 2
        RequestStatus.accepted none).2 10).map Project.civil_engineer_id =
      some (some 3) := by decide

/-- C6 counterexample: the admin (id 9) is not project 10's owner (1), not
its civil engineer (2) and has no assignment row, yet all three
sub-resource reads return the rows instead of Forbidden. -/
theorem read_access_admin_counterexample :
    projectById dbRead 10 = some ⟨10, 1, some 2, ProjectStatus.in_progress⟩ ∧
    adminUser.id ≠ 1 ∧ (some adminUser.id : Option Nat) ≠ some 2 ∧
    workerAssignment dbRead 10 adminUser.id = none ∧
    getProjectMaterials dbRead adminUser 10 = Except.ok [⟨1, 10, 1, 5, 2250, 2⟩] ∧
    getProjectMilestones dbRead adminUser 10 = Except.ok [] ∧
    getProjectWorkers dbRead adminUser 10 = Except.ok [] := by decide

/-- C7 counterexample: a client (id 5) assigning the unavailable plumber
(id 4) fails with the only-civil-engineers Forbidden branch, not with the
worker-unavailable Conflict branch, so "assigning an unavailable worker
always fails with Conflict regardless of the caller's role" is false. -/
theorem assign_unavailable_counterexample :
    plumberW4 ∈ dbAssign.users ∧ plumberW4.is_available = false ∧
    availableWorker dbAssign 4 = none ∧
    assignWorker dbAssign clientUser ⟨10, 4, none⟩ none =
      (AssignResult.onlyCivilEngineers, dbAssign) ∧
    AssignResult.onlyCivilEngineers ≠ AssignResult.workerNotAvailable := by decide

/-- Mapping a row-update that does not change the fields a `find?` predicate
inspects commutes with the lookup. -/
theorem find?_map_of_pred_invariant {α : Type} (l : List α) (upd : α → α) (p : α → Bool)
    (h : ∀ x, p (upd x) = p x) : (l.map upd).find? p = (l.find? p).map upd := by
  rw [List.find?_map]
  rw [show p ∘ upd = p from funext h]

/-- On a pending request owned by the worker, the respond handler commits
and its request-status update is the stated row map, for every decision. -/
theorem respond_ok_components
    (db : DB) (actor : User) (rid : Nat) (req : WorkerRequest) (d : RequestStatus)
    (hw : actor.user_type = UserType.worker)
    (hreq : requestForWorker db rid actor.id = some req)
    (hpend : req.status = RequestStatus.pending) :
    (respondToRequest db actor rid d none).1 = RespondResult.ok d ∧
    (respondToRequest db actor rid d none).2.worker_requests =
      db.worker_requests.map (fun r =>
        if r.id == rid then { r with status := d, responded := true } else r) := by
  cases d <;>
    simp [respondToRequest, hw, hreq, hpend, runTransaction, respondTxSteps, applySteps,
      setRequestStatus, setProjectEngineer, insertProjectWorker, setUnavailable]

/-- C2: on a pending request owned by the responding worker, accepting
commits — in one transaction — the request-status update, the project's
civil-engineer installation with status in_progress, a civil_engineer
assignment row and the availability flip; a store failure at any statement
of the transaction rolls everything back (including the request status);
rejecting changes only the request row. -/
theorem respond_transaction_effects
    (db : DB) (actor : User) (rid : Nat) (req : WorkerRequest)
    (hw : actor.user_type = UserType.worker)
    (hreq : requestForWorker db rid actor.id = some req)
    (hpend : req.status = RequestStatus.pending) :
    respondToRequest db actor rid RequestStatus.accepted none =
      (RespondResult.ok RequestStatus.accepted,
       { db with
         worker_requests := db.worker_requests.map (fun r =>
           if r.id == rid then
             { r with status := RequestStatus.accepted, responded := true } else r),
         projects := db.projects.map (fun p =>
           if p.id == req.project_id then
             { p with civil_engineer_id := some actor.id,
                      status := ProjectStatus.in_progress } else p),
         project_workers := db.project_workers ++
           [⟨db.next_worker_row_id, req.project_id, actor.id, actor.id,
             some "civil_engineer"⟩],
         users := db.users.map (fun u =>
           if u.id == actor.id then { u with is_available := false } else u),
         next_worker_row_id := db.next_worker_row_id + 1 }) ∧
    (∀ (decision : RequestStatus) (k : Nat),
      k < (respondTxSteps actor rid req.project_id decision).length →
      respondToRequest db actor rid decision (some k) =
        (RespondResult.internalError, db)) ∧
    respondToRequest db actor rid RequestStatus.rejected none =
      (RespondResult.ok RequestStatus.rejected,
       { db with
         worker_requests := db.worker_requests.map (fun r =>
           if r.id == rid then
             { r with status := RequestStatus.rejected, responded := true } else r) }) := by
  refine ⟨?_, ?_, ?_⟩
  · simp [respondToRequest, hw, hreq, hpend, runTransaction, respondTxSteps, applySteps,
      setRequestStatus, setProjectEngineer, insertProjectWorker, setUnavailable]
  · intro decision k hk
    simp [respondToRequest, hw, hreq, hpend, runTransaction, hk]
  · simp [respondToRequest, hw, hreq, hpend, runTransaction, respondTxSteps, applySteps,
      setRequestStatus]

/-- State for the respond scenarios: pending request 1 from owner 1 asking
engineer 2 onto project 10. -/
def dbRespond : DB :=
  ⟨[ownerUser, engineerW1], [⟨10, 1, none, ProjectStatus.planning⟩],
   [⟨1, 10, 2, 1, RequestStatus.pending, "join", false⟩], [], [], [], [], 2, 1, 1⟩

theorem respond_transaction_effects_witness :
    (respondToRequest dbRespond engineerW1 1 RequestStatus.accepted none).1 =
      RespondResult.ok RequestStatus.accepted ∧
    respondToRequest dbRespond engineerW1 1 RequestStatus.accepted (some 2) =
      (RespondResult.internalError, dbRespond) := by
  have h := respond_transaction_effects dbRespond engineerW1 1
    ⟨1, 10, 2, 1, RequestStatus.pending, "join", false⟩ rfl (by decide) rfl
  exact ⟨by rw [h.1], h.2.1 RequestStatus.accepted 2 (by decide)⟩

/-- C4: after a pending request is resolved (accepted or rejected), its row
is no longer pending, so a second respond call on the same id by the target
worker — with any decision and even with a store failure injected — returns
the already-responded Conflict and leaves the state unchanged; the first
call's effects are not duplicated and the status never reverses. -/
theorem respond_twice_conflict
    (db : DB) (actor : User) (rid : Nat) (req : WorkerRequest)
    (d d' : RequestStatus) (f' : Option Nat)
    (hw : actor.user_type = UserType.worker)
    (hreq : requestForWorker db rid actor.id = some req)
    (hpend : req.status = RequestStatus.pending)
    (hd : d = RequestStatus.accepted ∨ d = RequestStatus.rejected) :
    (respondToRequest db actor rid d none).1 = RespondResult.ok d ∧
    requestForWorker (respondToRequest db actor rid d none).2 rid actor.id =
      some { req with status := d, responded := true } ∧
    respondToRequest (respondToRequest db actor rid d none).2 actor rid d' f' =
      (RespondResult.alreadyResponded, (respondToRequest db actor rid d none).2) := by
  obtain ⟨h1, h2⟩ := respond_ok_components db actor rid req d hw hreq hpend
  have hinv : ∀ r : WorkerRequest,
      (((if r.id == rid then { r with status := d, responded := true } else r).id == rid) &&
        ((if r.id == rid then { r with status := d, responded := true } else r).worker_id
          == actor.id))
        = ((r.id == rid) && (r.worker_id == actor.id)) := by
    intro r
    by_cases hr : (r.id == rid) = true <;> simp [hr]
  have hpr := List.find?_some hreq
  simp only [Bool.and_eq_true, beq_iff_eq] at hpr
  have hfound : requestForWorker (respondToRequest db actor rid d none).2 rid actor.id =
      some { req with status := d, responded := true } := by
    unfold requestForWorker at hreq ⊢
    rw [h2, find?_map_of_pred_invariant _ _ _ hinv, hreq]
    simp [hpr.1]
  refine ⟨h1, hfound, ?_⟩
  generalize hdb1 : (respondToRequest db actor rid d none).2 = db1 at hfound
  rcases hd with rfl | rfl <;> simp [respondToRequest, hw, hfound]

theorem respond_twice_conflict_witness :
    respondToRequest (respondToRequest dbRespond engineerW1 1 RequestStatus.rejected none).2
        engineerW1 1 RequestStatus.accepted none =
      (RespondResult.alreadyResponded,
        (respondToRequest dbRespond engineerW1 1 RequestStatus.rejected none).2) :=
  (respond_twice_conflict dbRespond engineerW1 1
    ⟨1, 10, 2, 1, RequestStatus.pending, "join", false⟩
    RequestStatus.rejected RequestStatus.accepted none rfl (by decide) rfl
    (Or.inr rfl)).2.2

/-- C10: the respond-accept path never re-reads the target worker's
availability: even when the responding worker's row is already marked
unavailable, accepting a pending request succeeds and installs that worker
as the project's civil engineer (status in_progress). -/
theorem respond_accept_ignores_availability
    (db : DB) (actor : User) (rid : Nat) (req : WorkerRequest) (u : User) (p : Project)
    (hw : actor.user_type = UserType.worker)
    (hreq : requestForWorker db rid actor.id = some req)
    (hpend : req.status = RequestStatus.pending)
    (hu : u ∈ db.users) (huid : u.id = actor.id) (hunav : u.is_available = false)
    (hp : projectById db req.project_id = some p) :
    (respondToRequest db actor rid RequestStatus.accepted none).1 =
      RespondResult.ok RequestStatus.accepted ∧
    projectById (respondToRequest db actor rid RequestStatus.accepted none).2
        req.project_id =
      some { p with civil_engineer_id := some actor.id,
                    status := ProjectStatus.in_progress } := by
  refine ⟨(respond_ok_components db actor rid req RequestStatus.accepted hw hreq hpend).1, ?_⟩
  have hres : (respondToRequest db actor rid RequestStatus.accepted none).2.projects =
      db.projects.map (fun q =>
        if q.id == req.project_id then
          { q with civil_engineer_id := some actor.id,
                   status := ProjectStatus.in_progress }
        else q) := by
    simp [respondToRequest, hw, hreq, hpend, runTransaction, respondTxSteps, applySteps,
      setRequestStatus, setProjectEngineer, insertProjectWorker, setUnavailable]
  have hinv : ∀ q : Project,
      ((if q.id == req.project_id then
          { q with civil_engineer_id := some actor.id,
                   status := ProjectStatus.in_progress }
        else q).id == req.project_id) = (q.id == req.project_id) := by
    intro q
    by_cases hq : (q.id == req.project_id) = true <;> simp [hq]
  have hpid : (p.id == req.project_id) = true := by
    have := List.find?_some (p := fun q : Project => q.id == req.project_id)
      (by simpa [projectById] using hp)
    exact this
  have hpe : p.id = req.project_id := by simpa using hpid
  unfold projectById at hp ⊢
  rw [hres, find?_map_of_pred_invariant _ _ _ hinv, hp]
  simp [hpe]

/-- State for the accept-while-unavailable scenario: engineer 2 is already
unavailable (assigned to project 10) but has a pending request 1 for
project 11. -/
def dbRespondBusy : DB :=
  ⟨[ownerUser, ceUser], [⟨10, 1, some 2, ProjectStatus.in_progress⟩,
    ⟨11, 1, none, ProjectStatus.planning⟩],
   [⟨1, 11, 2, 1, RequestStatus.pending, "also mine", false⟩], [], [], [], [], 2, 1, 1⟩

theorem respond_accept_ignores_availability_witness :
    (respondToRequest dbRespondBusy ceUser 1 RequestStatus.accepted none).1 =
      RespondResult.ok RequestStatus.accepted ∧
    projectById (respondToRequest dbRespondBusy ceUser 1 RequestStatus.accepted none).2 11 =
      some ⟨11, 1, some 2, ProjectStatus.in_progress⟩ := by
  have h := respond_accept_ignores_availability dbRespondBusy ceUser 1
    ⟨1, 11, 2, 1, RequestStatus.pending, "also mine", false⟩ ceUser
    ⟨11, 1, none, ProjectStatus.planning⟩ rfl (by decide) rfl (by decide) rfl rfl
    (by decide)
  exact h

/-- C5: creating a worker request succeeds (returning the fresh id and
inserting a pending row) exactly when the actor owns the existing target
project, the target is an available civil-engineer worker and no pending
request exists for the (project, worker) pair; when all other guards pass
but a pending request exists, it fails with the duplicate-request Conflict
and changes nothing.  In particular a pair whose earlier request was
rejected no longer matches the pending filter, so a new request succeeds. -/
theorem create_request_guards (db : DB) (actor : User) (a : CreateRequestArgs) :
    ((createWorkerRequest db actor a).1 = CreateRequestResult.created db.next_request_id ↔
      (∃ p, projectById db a.project_id = some p ∧ p.created_by = actor.id) ∧
      (availableEngineer db a.worker_id).isSome ∧
      pendingRequest db a.project_id a.worker_id = none) ∧
    (∀ p w r, projectById db a.project_id = some p → p.created_by = actor.id →
      availableEngineer db a.worker_id = some w →
      pendingRequest db a.project_id a.worker_id = some r →
      createWorkerRequest db actor a = (CreateRequestResult.requestAlreadySent, db)) ∧
    (∀ p w, projectById db a.project_id = some p → p.created_by = actor.id →
      availableEngineer db a.worker_id = some w →
      pendingRequest db a.project_id a.worker_id = none →
      createWorkerRequest db actor a =
        (CreateRequestResult.created db.next_request_id,
         { db with
           worker_requests := db.worker_requests ++
             [⟨db.next_request_id, a.project_id, a.worker_id, actor.id,
               RequestStatus.pending, a.message, false⟩],
           next_request_id := db.next_request_id + 1 })) := by
  refine ⟨?_, ?_, ?_⟩
  · cases hp : projectById db a.project_id with
    | none => simp [createWorkerRequest, hp]
    | some p =>
      by_cases hown : p.created_by = actor.id
      · cases hwk : availableEngineer db a.worker_id with
        | none => simp [createWorkerRequest, hp, hown, hwk]
        | some w =>
          cases hpend : pendingRequest db a.project_id a.worker_id with
          | none => simp [createWorkerRequest, hp, hown, hwk, hpend]
          | some r => simp [createWorkerRequest, hp, hown, hwk, hpend]
      · simp only [createWorkerRequest, hp, hown, if_true, if_false]
        constructor
        · intro hc
          simp [hown] at hc
        · rintro ⟨⟨q, hq, hq2⟩, -, -⟩
          cases hq
          exact absurd hq2 hown
  · intro p w r hp hown hwk hpend
    simp [createWorkerRequest, hp, hown, hwk, hpend]
  · intro p w hp hown hwk hpend
    simp [createWorkerRequest, hp, hown, hwk, hpend]

/-- State for the retry-after-reject scenario: the pair (project 10,
engineer 2) has one rejected request and no pending one. -/
def dbRejected : DB :=
  ⟨[ownerUser, engineerW1], [⟨10, 1, none, ProjectStatus.planning⟩],
   [⟨1, 10, 2, 1, RequestStatus.rejected, "first try", true⟩], [], [], [], [], 2, 1, 1⟩

theorem create_request_guards_witness :
    createWorkerRequest dbRejected ownerUser ⟨10, 2, "second try"⟩ =
      (CreateRequestResult.created 2,
       { dbRejected with
         worker_requests := dbRejected.worker_requests ++
           [⟨2, 10, 2, 1, RequestStatus.pending, "second try", false⟩],
         next_request_id := 3 }) := by
  have h := (create_request_guards dbRejected ownerUser ⟨10, 2, "second try"⟩).2.2
    ⟨10, 1, none, ProjectStatus.planning⟩ engineerW1 (by decide) rfl (by decide) (by decide)
  exact h

/-- C6 (amended): on an existing project, a `user`-type actor who is not
the owner, and a `worker`-type actor who is neither the civil engineer nor
in the assignment list, receive Forbidden from all three sub-resource
reads; an admin actor falls through both guards and is granted read
access. -/
theorem read_access_forbidden_amended
    (db : DB) (actor : User) (pid : Nat) (p : Project)
    (hp : projectById db pid = some p) :
    (actor.user_type = UserType.user → p.created_by ≠ actor.id →
      getProjectMaterials db actor pid = Except.error ReadError.forbidden ∧
      getProjectMilestones db actor pid = Except.error ReadError.forbidden ∧
      getProjectWorkers db actor pid = Except.error ReadError.forbidden) ∧
    (actor.user_type = UserType.worker → p.civil_engineer_id ≠ some actor.id →
      workerAssignment db pid actor.id = none →
      getProjectMaterials db actor pid = Except.error ReadError.forbidden ∧
      getProjectMilestones db actor pid = Except.error ReadError.forbidden ∧
      getProjectWorkers db actor pid = Except.error ReadError.forbidden) ∧
    (actor.user_type = UserType.admin →
      authorizeProjectRead db actor pid = Except.ok p) := by
  refine ⟨?_, ?_, ?_⟩
  · intro ht hnown
    have hg : authorizeProjectRead db actor pid = Except.error ReadError.forbidden := by
      simp [authorizeProjectRead, hp, ht, hnown]
    simp [getProjectMaterials, getProjectMilestones, getProjectWorkers, hg, Except.map]
  · intro ht hce hassign
    have hg : authorizeProjectRead db actor pid = Except.error ReadError.forbidden := by
      simp [authorizeProjectRead, hp, ht, hce, hassign]
    simp [getProjectMaterials, getProjectMilestones, getProjectWorkers, hg, Except.map]
  · intro ht
    simp [authorizeProjectRead, hp, ht]

/-- A worker with no relation to project 10. -/
def strangerWorker : User := ⟨7, UserType.worker, some SubUserType.plumber, true⟩

theorem read_access_forbidden_amended_witness :
    getProjectMaterials dbRead strangerWorker 10 = Except.error ReadError.forbidden ∧
    getProjectMilestones dbRead strangerWorker 10 = Except.error ReadError.forbidden ∧
    getProjectWorkers dbRead strangerWorker 10 = Except.error ReadError.forbidden :=
  (read_access_forbidden_amended dbRead strangerWorker 10
    ⟨10, 1, some 2, ProjectStatus.in_progress⟩ (by decide)).2.1 rfl (by decide) (by decide)

/-- C7 (amended): the assign endpoint fails Forbidden whenever the actor is
not a civil-engineer worker or not the named project's civil engineer; a
target that the available-worker lookup does not return (in particular an
unavailable worker) is never assigned — the project's civil engineer gets
the worker-unavailable Conflict, every other caller an earlier Forbidden —
and on success the assignment insert and the availability flip happen in
one transaction (a failure at either statement rolls both back). -/
theorem assign_worker_amended (db : DB) (actor : User) (a : AssignArgs) :
    (actor.user_type ≠ UserType.worker ∨
        actor.sub_user_type ≠ some SubUserType.civil_engineer →
      ∀ f, assignWorker db actor a f = (AssignResult.onlyCivilEngineers, db)) ∧
    (actor.user_type = UserType.worker →
      actor.sub_user_type = some SubUserType.civil_engineer →
      projectWithEngineer db a.project_id actor.id = none →
      ∀ f, assignWorker db actor a f = (AssignResult.notAuthorizedForProject, db)) ∧
    (availableWorker db a.worker_id = none →
      ∀ f, (assignWorker db actor a f).2 = db ∧
        (assignWorker db actor a f).1 ≠ AssignResult.assigned) ∧
    (actor.user_type = UserType.worker →
      actor.sub_user_type = some SubUserType.civil_engineer →
      ∀ p, projectWithEngineer db a.project_id actor.id = some p →
      availableWorker db a.worker_id = none →
      ∀ f, assignWorker db actor a f = (AssignResult.workerNotAvailable, db)) ∧
    (∀ p w, projectWithEngineer db a.project_id actor.id = some p →
      availableWorker db a.worker_id = some w →
      actor.user_type = UserType.worker →
      actor.sub_user_type = some SubUserType.civil_engineer →
      assignWorker db actor a none =
        (AssignResult.assigned,
         { db with
           project_workers := db.project_workers ++
             [⟨db.next_worker_row_id, a.project_id, a.worker_id, actor.id,
               (match a.role with
                | some r => some r
                | none => w.sub_user_type.map subRoleLabel)⟩],
           users := db.users.map (fun u =>
             if u.id == a.worker_id then { u with is_available := false } else u),
           next_worker_row_id := db.next_worker_row_id + 1 }) ∧
      (∀ k, k < 2 → assignWorker db actor a (some k) =
        (AssignResult.internalError, db))) := by
  refine ⟨?_, ?_, ?_, ?_, ?_⟩
  · intro hne f
    simp only [assignWorker]
    rw [if_pos hne]
  · intro ht hs hproj f
    simp [assignWorker, ht, hs, hproj]
  · intro hw f
    by_cases hg : actor.user_type ≠ UserType.worker ∨
        actor.sub_user_type ≠ some SubUserType.civil_engineer
    · simp only [assignWorker]
      rw [if_pos hg]
      simp
    · cases hproj : projectWithEngineer db a.project_id actor.id with
      | none =>
        simp only [assignWorker]
        rw [if_neg hg]
        simp [hproj]
      | some p =>
        simp only [assignWorker]
        rw [if_neg hg]
        simp [hproj, hw]
  · intro ht hs p hproj hw f
    simp [assignWorker, ht, hs, hproj, hw]
  · intro p w hproj hwk ht hs
    constructor
    · simp [assignWorker, ht, hs, hproj, hwk, runTransaction, assignTxSteps, applySteps,
        insertProjectWorker, setUnavailable]
    · intro k hk
      have hlen : k < (assignTxSteps actor a w).length := by
        simpa [assignTxSteps] using hk
      simp [assignWorker, ht, hs, hproj, hwk, runTransaction, hlen]

theorem assign_worker_amended_witness :
    assignWorker dbAssign ceUser ⟨10, 4, none⟩ none =
      (AssignResult.workerNotAvailable, dbAssign) :=
  (assign_worker_amended dbAssign ceUser ⟨10, 4, none⟩).2.2.2.1 rfl rfl
    ⟨10, 1, some 2, ProjectStatus.in_progress⟩ (by decide) (by decide) none


/-- Every material row of the database has non-negative stock. -/
def stocksNonneg (db : DB) : Prop :=
  ∀ m ∈ db.materials, 0 ≤ m.stock_quantity

/-- A successful order check pinpoints the fetched material, proves the
requested quantity did not exceed its stock, and fixes the cost snapshot. -/
theorem orderCheck_ok_inv (db : DB) (u : User) (a : OrderArgs) (tc : Int)
    (h : orderCheck db u a = Except.ok tc) :
    ∃ m, materialById db a.material_id = some m ∧ a.quantity ≤ m.stock_quantity ∧
      tc = m.price_per_unit * a.quantity := by
  unfold orderCheck at h
  split at h
  · simp at h
  · split at h
    · simp at h
    · rename_i m hm
      split at h
      · simp at h
      · rename_i hq
        refine ⟨m, hm, not_lt.mp hq, ?_⟩
        injection h with h2
        exact h2.symm

/-- One order call keeps every stock non-negative and leaves the material
id column unchanged. -/
theorem orderMaterial_preserves (db : DB) (u : User) (a : OrderArgs)
    (hn : stocksNonneg db) (hd : (db.materials.map Material.id).Nodup) :
    stocksNonneg (orderMaterial db u a).2 ∧
    (orderMaterial db u a).2.materials.map Material.id = db.materials.map Material.id := by
  cases hc : orderCheck db u a with
  | error e =>
    constructor
    · simpa [orderMaterial, hc] using hn
    · simp [orderMaterial, hc]
  | ok tc =>
    obtain ⟨m, hm, hq, -⟩ := orderCheck_ok_inv db u a tc hc
    have hfind : List.find? (fun x => x.id == a.material_id) db.materials = some m := hm
    have hmmem : m ∈ db.materials := List.mem_of_find?_eq_some hfind
    have hmid0 := List.find?_some hfind
    have hmid : (m.id == a.material_id) = true := hmid0
    constructor
    · intro x hx
      simp only [orderMaterial, hc, orderWrite] at hx
      obtain ⟨y, hy, rfl⟩ := List.mem_map.mp hx
      by_cases hid : (y.id == a.material_id) = true
      · have hym : y = m := by
          refine List.inj_on_of_nodup_map hd hy hmmem ?_
          have h1 : y.id = a.material_id := by simpa using hid
          have h2 : m.id = a.material_id := by simpa using hmid
          simp [h1, h2]
        subst hym
        simp only [hid, if_true]
        exact Int.sub_nonneg.mpr hq
      · simp only [Bool.not_eq_true] at hid
        simp only [hid]
        simp only [Bool.false_eq_true, if_false]
        exact hn y hy
    · simp only [orderMaterial, hc, orderWrite, List.map_map]
      refine List.map_congr_left ?_
      intro y hy
      by_cases hid : y.id = a.material_id <;> simp [hid]

/-- Any sequential run of order calls preserves stock non-negativity
(given unique material ids, as the primary key guarantees). -/
theorem applyOrders_stocksNonneg (ops : List (User × OrderArgs)) :
    ∀ db : DB, stocksNonneg db → (db.materials.map Material.id).Nodup →
      stocksNonneg (applyOrders db ops) := by
  induction ops with
  | nil =>
    intro db hn _
    simpa [applyOrders] using hn
  | cons op rest ih =>
    intro db hn hd
    have h := orderMaterial_preserves db op.1 op.2 hn hd
    have heq : applyOrders db (op :: rest) =
        applyOrders (orderMaterial db op.1 op.2).2 rest := by
      simp [applyOrders]
    rw [heq]
    refine ih _ h.1 ?_
    rw [h.2]
    exact hd

/-- C3: starting from non-negative stocks (and primary-key-unique material
ids), stock_quantity stays non-negative under every sequential run of
order operations; moreover an order succeeds only when the requested
quantity does not exceed the fetched material's current stock, and then
decrements exactly that material's stock by exactly that quantity. -/
theorem order_stock_nonnegative (db : DB) (ops : List (User × OrderArgs))
    (hn : stocksNonneg db) (hd : (db.materials.map Material.id).Nodup) :
    stocksNonneg (applyOrders db ops) ∧
    (∀ u a tc, (orderMaterial db u a).1 = Except.ok tc →
      ∃ m, materialById db a.material_id = some m ∧ a.quantity ≤ m.stock_quantity ∧
        (orderMaterial db u a).2.materials = db.materials.map (fun x =>
          if x.id == a.material_id then
            { x with stock_quantity := x.stock_quantity - a.quantity }
          else x)) := by
  constructor
  · exact applyOrders_stocksNonneg ops db hn hd
  · intro u a tc h
    have hc : orderCheck db u a = Except.ok tc := by
      unfold orderMaterial at h
      cases hc : orderCheck db u a <;> rw [hc] at h
      · simp at h
      · simp at h
        rw [h]
    obtain ⟨m, hm, hq, -⟩ := orderCheck_ok_inv db u a tc hc
    exact ⟨m, hm, hq, by simp [orderMaterial, hc, orderWrite]⟩

theorem order_stock_nonnegative_witness :
    stocksNonneg (applyOrders dbOrder [(ceUser, ⟨10, 1, 8⟩), (ceUser, ⟨10, 1, 8⟩)]) ∧
    materialById (applyOrders dbOrder [(ceUser, ⟨10, 1, 8⟩), (ceUser, ⟨10, 1, 8⟩)]) 1 =
      some ⟨1, 450, 2⟩ := by
  refine ⟨(order_stock_nonnegative dbOrder [(ceUser, ⟨10, 1, 8⟩), (ceUser, ⟨10, 1, 8⟩)]
    (show ∀ m ∈ dbOrder.materials, (0:Int) ≤ m.stock_quantity by decide)
    (by decide)).1, by decide⟩
